import Mathlib

/-!
Shallow embedding of the betting_abci skill
(src/packages/valory/skills/betting_abci/behaviours.py and
src/packages/valory/contracts/betting/contract.py).

External collaborators (the ledger read interface, the multisend packing
contract and the multisig wallet interface) are modelled as oracles: either
a concrete response value passed in, or a function from the request the
behaviour builds to the response the interface returns.  Python values that
flow through untyped dictionaries are modelled by the small type PyVal, and
Python exceptions by the Except monad with the error type PyErr.
-/

/-- Python runtime errors that the embedded code can raise. -/
inductive PyErr where
  | keyError
  | typeError
  | indexError
  | attributeError
deriving DecidableEq, Repr

/-- Python values carried in the untyped response bodies and payload fields. -/
inductive PyVal where
  | none
  | bool (b : Bool)
  | int (n : Int)
  | str (s : String)
  | bytes (bs : List Nat)
deriving DecidableEq, Repr

/-- Python dictionary lookup with a default of None: `d.get(k, None)`
returns some value when the key is present. -/
def bodyGet (body : List (String × PyVal)) (k : String) : Option PyVal :=
  match body.find? (fun kv => kv.1 == k) with
  | some kv => some kv.2
  | Option.none => Option.none

/-- Python subscripting `v[0]`: strings and bytes are subscriptable,
None, booleans and integers raise TypeError, empty sequences raise
IndexError. -/
def pySubscript0 : PyVal → Except PyErr PyVal
  | PyVal.str s =>
    match s.data with
    | [] => Except.error PyErr.indexError
    | c :: _ => Except.ok (PyVal.str (String.mk [c]))
  | PyVal.bytes bs =>
    match bs with
    | [] => Except.error PyErr.indexError
    | b :: _ => Except.ok (PyVal.int b)
  | _ => Except.error PyErr.typeError

/-- Performatives of the contract api protocol used by the behaviours. -/
inductive Performative where
  | GET_RAW_TRANSACTION
  | GET_STATE
  | RAW_TRANSACTION
  | STATE
  | ERROR
deriving DecidableEq, Repr

/-- Response of the ledger read/encode interface: a performative plus an
untyped body map. -/
structure ContractApiResponse where
  performative : Performative
  body : List (String × PyVal)
deriving DecidableEq, Repr

/-- Process-wide configuration (the Params object of the skill). -/
structure Params where
  betting_contract_address : String
  multisend_address : String
  transfer_target_address : String
  match_key : String
  betting_amount : Int
deriving DecidableEq, Repr

/-- SynchronizedData fields read by the behaviours. -/
structure SynchronizedData where
  betting_result : Bool
  has_placed_bet : Bool
  betting_ipfs_hash : String
  safe_contract_address : String
deriving DecidableEq, Repr

/-- Constant ZERO_VALUE from behaviours.py. -/
def ZERO_VALUE : Int := 0

/-- Constant SAFE_GAS from behaviours.py. -/
def SAFE_GAS : Int := 0

/-- Constant VALUE_KEY from behaviours.py. -/
def VALUE_KEY : String := "value"

/-- Constant TO_ADDRESS_KEY from behaviours.py. -/
def TO_ADDRESS_KEY : String := "to_address"

/-- Modelled from the spec: the SafeOperation enum of the gnosis_safe
contract wrapper is not among the sources; the spec distinguishes a plain
call from a delegate-call operation on the wallet.  Standard Safe encoding
uses 0 for a plain call. -/
def SafeOperation_CALL : Nat := 0

/-- Modelled from the spec: delegate-call operation code of the wallet,
standard Safe encoding uses 1. -/
def SafeOperation_DELEGATE_CALL : Nat := 1

/-- Modelled from the spec: the constant TX_HASH_LENGTH imported from
transaction_settlement_abci.rounds is not among the sources.  The spec fixes
the marker prefix at 2 characters and the expected stripped hash length at
64 hex characters, so the validated full length is 66. -/
def TX_HASH_LENGTH : Nat := 66

/-- Modelled from the spec: the Event enum of rounds.py is not among the
sources; the spec names the two events emitted by DecisionMaking TRANSACT
and DONE. -/
inductive Event where
  | TRANSACT
  | DONE
deriving DecidableEq, Repr

/-- DecisionMakingBehaviour.get_next_event: TRANSACT when the betting result
is true and the bet has not been placed yet, DONE otherwise. -/
def get_next_event (s : SynchronizedData) : Event :=
  if s.betting_result && !s.has_placed_bet then Event.TRANSACT
  else Event.DONE

/-- DataPullBehaviour.get_has_placed_bet: returns None on a response whose
performative is not RAW_TRANSACTION, returns None when the data key is
absent from the body (or holds None), and otherwise returns the stored
value. -/
def get_has_placed_bet (response_msg : ContractApiResponse) : PyVal :=
  if response_msg.performative ≠ Performative.RAW_TRANSACTION then PyVal.none
  else
    let response := (bodyGet response_msg.body "data").getD PyVal.none
    if response = PyVal.none then PyVal.none
    else response

/-- DataPullBehaviour.send_betting_result_to_ipfs: forwards whatever the
content-addressed storage interface returned (None when the store failed). -/
def send_betting_result_to_ipfs (storeResult : Option String) : Option String :=
  storeResult

/-- Payload of the DataPull stage. -/
structure DataPullPayload where
  sender : String
  betting_result : PyVal
  betting_ipfs_hash : Option String
  has_placed_bet : PyVal
deriving DecidableEq, Repr

/-- Local part of DataPullBehaviour.async_act: take the parsed oracle
response, the storage result and the contract read response, and build the
DataPullPayload.  The field expressions are evaluated in source order:
`response[\x27result\x27]` is a dict subscript (KeyError when absent), and
`has_placed_bet[0]` subscripts the value returned by get_has_placed_bet. -/
def data_pull_act (sender : String) (oracle : List (String × PyVal))
    (storeResult : Option String) (hpbResp : ContractApiResponse) :
    Except PyErr DataPullPayload :=
  let betting_ipfs_hash := send_betting_result_to_ipfs storeResult
  let has_placed_bet := get_has_placed_bet hpbResp
  match bodyGet oracle "result" with
  | Option.none => Except.error PyErr.keyError
  | some betting_result =>
    match pySubscript0 has_placed_bet with
    | Except.error e => Except.error e
    | Except.ok hpb0 =>
      Except.ok ⟨sender, betting_result, betting_ipfs_hash, hpb0⟩

/-- Decimal digits of a natural number, least significant first.  Models the
decimal string representation str(now) of the synchronized timestamp, read
from its last character. -/
def digitsRev (n : Nat) : List Nat :=
  if h : n < 10 then [n]
  else n % 10 :: digitsRev (n / 10)
decreasing_by exact Nat.div_lt_self (by omega) (by omega)

/-- Last character of the decimal representation, as a digit: models
`int(str(now)[-1])` in TxPreparationBehaviour.get_tx_hash. -/
def lastDecimalDigit (n : Nat) : Nat :=
  (digitsRev n).headD 0

/-- Python slicing s[2:]: drop the first two characters. -/
def strip2 (s : String) : String :=
  String.mk (s.data.drop 2)

/-- Lowercase hex digit for a value below 16, as produced by bytes.hex(). -/
def hexDigitChar (n : Nat) : Char :=
  if n = 0 then '0' else if n = 1 then '1' else if n = 2 then '2'
  else if n = 3 then '3' else if n = 4 then '4' else if n = 5 then '5'
  else if n = 6 then '6' else if n = 7 then '7' else if n = 8 then '8'
  else if n = 9 then '9' else if n = 10 then 'a' else if n = 11 then 'b'
  else if n = 12 then 'c' else if n = 13 then 'd' else if n = 14 then 'e'
  else 'f'

/-- Two lowercase hex characters of one byte, as in bytes.hex(). -/
def byteToHex (b : Nat) : List Char :=
  [hexDigitChar (b / 16), hexDigitChar (b % 16)]

/-- Python bytes.hex(): lowercase hex string, two characters per byte. -/
def bytesToHex (bs : List Nat) : String :=
  String.mk (bs.map byteToHex).flatten

/-- Numeric value of a hex character, as used by bytes.fromhex. -/
def hexCharVal (c : Char) : Nat :=
  if c = '0' then 0 else if c = '1' then 1 else if c = '2' then 2
  else if c = '3' then 3 else if c = '4' then 4 else if c = '5' then 5
  else if c = '6' then 6 else if c = '7' then 7 else if c = '8' then 8
  else if c = '9' then 9 else if c = 'a' then 10 else if c = 'b' then 11
  else if c = 'c' then 12 else if c = 'd' then 13 else if c = 'e' then 14
  else 15

/-- Consume hex characters two at a time into bytes. -/
def hexPairsToBytes : List Char → List Nat
  | c1 :: c2 :: rest => (16 * hexCharVal c1 + hexCharVal c2) :: hexPairsToBytes rest
  | _ => []

/-- Python bytes.fromhex on an even-length hex string. -/
def hexToBytes (s : String) : List Nat :=
  hexPairsToBytes s.data

/-- Modelled from the spec: hash_payload_to_hex from
transaction_settlement_abci.payload_tools is not among the sources.  The
spec describes it as a canonical encode-to-hex routine that deterministically
combines the stripped hash with (value, gas, destination, data, operation)
into the final transaction hash string. -/
def hash_payload_to_hex (safe_tx_hash : String) (ether_value : Int)
    (safe_tx_gas : Int) (to_address : String) (data : List Nat)
    (operation : Nat) : String :=
  safe_tx_hash ++ toString ether_value ++ toString safe_tx_gas ++ to_address
    ++ toString operation ++ bytesToHex data

/-- Request the behaviour sends to the wallet interface for
get_raw_safe_transaction_hash. -/
structure SafeTxRequest where
  contract_address : String
  to_address : String
  value : Int
  data : List Nat
  safe_tx_gas : Int
  operation : Nat
deriving DecidableEq, Repr

/-- Response of the wallet interface for get_raw_safe_transaction_hash: a
performative and the tx_hash entry of the body (None when absent). -/
structure SafeHashResponse where
  performative : Performative
  tx_hash : Option String
deriving DecidableEq, Repr

/-- Request built inside TxPreparationBehaviour._build_safe_tx_hash: the
safe address is the contract being queried, gas is the SAFE_GAS constant. -/
def mk_safe_tx_request (safe_contract_address to_address : String)
    (value : Int) (data : List Nat) (operation : Nat) : SafeTxRequest :=
  ⟨safe_contract_address, to_address, value, data, SAFE_GAS, operation⟩

/-- Response handling of TxPreparationBehaviour._build_safe_tx_hash: reject
a non-STATE performative, reject a missing hash, reject a hash whose length
differs from TX_HASH_LENGTH, then strip the 2-character marker and combine
through hash_payload_to_hex. -/
def process_safe_hash_response (to_address : String) (value : Int)
    (data : List Nat) (operation : Nat) (resp : SafeHashResponse) :
    Option String :=
  if resp.performative ≠ Performative.STATE then Option.none
  else
    match resp.tx_hash with
    | Option.none => Option.none
    | some tx_hash =>
      if tx_hash.length ≠ TX_HASH_LENGTH then Option.none
      else
        some (hash_payload_to_hex (strip2 tx_hash) value SAFE_GAS to_address
          data operation)

/-- TxPreparationBehaviour._build_safe_tx_hash: query the wallet interface
with the built request and process its response. -/
def build_safe_tx_hash (wallet : SafeTxRequest → SafeHashResponse)
    (safe_contract_address to_address : String) (value : Int)
    (data : List Nat) (operation : Nat) : Option String :=
  process_safe_hash_response to_address value data operation
    (wallet (mk_safe_tx_request safe_contract_address to_address value data
      operation))

/-- TxPreparationBehaviour.get_place_bet_data: on a RAW_TRANSACTION response
whose body carries bytes under the data key, return their hex string; on a
wrong performative or an absent value return None; calling .hex() on a
non-bytes value raises AttributeError. -/
def get_place_bet_data (response_msg : ContractApiResponse) :
    Except PyErr (Option String) :=
  if response_msg.performative ≠ Performative.RAW_TRANSACTION then
    Except.ok Option.none
  else
    match (bodyGet response_msg.body "data").getD PyVal.none with
    | PyVal.none => Except.ok Option.none
    | PyVal.bytes data_bytes => Except.ok (some (bytesToHex data_bytes))
    | _ => Except.error PyErr.attributeError

/-- TxPreparationBehaviour.get_place_bet_safe_tx_hash: return None when the
placement call data is unavailable, otherwise build the wallet hash request
with destination the betting contract, value the configured bet amount, the
decoded call data and the plain-call operation. -/
def get_place_bet_safe_tx_hash (p : Params) (safe_contract_address : String)
    (betResp : ContractApiResponse)
    (wallet : SafeTxRequest → SafeHashResponse) :
    Except PyErr (Option String) :=
  match get_place_bet_data betResp with
  | Except.error e => Except.error e
  | Except.ok Option.none => Except.ok Option.none
  | Except.ok (some data_hex) =>
    Except.ok (build_safe_tx_hash wallet safe_contract_address
      p.betting_contract_address p.betting_amount (hexToBytes data_hex)
      SafeOperation_CALL)

/-- TxPreparationBehaviour.get_native_transfer_data: a dict sending 1 wei to
the configured transfer target. -/
def get_native_transfer_data (p : Params) : List (String × PyVal) :=
  [(VALUE_KEY, PyVal.int 1), (TO_ADDRESS_KEY, PyVal.str p.transfer_target_address)]

/-- Operations of the multisend packing contract. -/
inductive MultiSendOp where
  | CALL
  | DELEGATE_CALL
deriving DecidableEq, Repr

/-- One entry of the list handed to the multisend packing contract.  The
value field carries the Python value stored under the value key; the native
transfer entry has no data key. -/
structure MultiSendTx where
  operation : MultiSendOp
  to_address : String
  value : PyVal
  data : Option (List Nat)
deriving DecidableEq, Repr

/-- The multi_send_txs list built by
TxPreparationBehaviour.get_multisend_safe_tx_hash: first the native
transfer (with the value looked up from get_native_transfer_data), then the
bet placement call with the configured bet amount. -/
def get_multisend_txs (p : Params) (place_bet_data_hex : String) :
    List MultiSendTx :=
  let native_transfer_data := get_native_transfer_data p
  [ ⟨MultiSendOp.CALL, p.transfer_target_address,
      (bodyGet native_transfer_data VALUE_KEY).getD PyVal.none, Option.none⟩,
    ⟨MultiSendOp.CALL, p.betting_contract_address,
      PyVal.int p.betting_amount, some (hexToBytes place_bet_data_hex)⟩ ]

/-- TxPreparationBehaviour.get_multisend_safe_tx_hash: build the two-entry
call list, hand it to the multisend packing adapter, strip the marker from
the packed data and request the wallet hash with destination the multisend
contract, value ZERO_VALUE and the delegate-call operation.  The body
subscript on the data key raises KeyError when the key is absent, and the
hex decode raises TypeError on a non-string value. -/
def get_multisend_safe_tx_hash (p : Params) (safe_contract_address : String)
    (betResp : ContractApiResponse)
    (msAdapter : List MultiSendTx → ContractApiResponse)
    (wallet : SafeTxRequest → SafeHashResponse) :
    Except PyErr (Option String) :=
  match get_place_bet_data betResp with
  | Except.error e => Except.error e
  | Except.ok Option.none => Except.ok Option.none
  | Except.ok (some place_bet_data_hex) =>
    let multi_send_txs := get_multisend_txs p place_bet_data_hex
    let contract_api_msg := msAdapter multi_send_txs
    if contract_api_msg.performative ≠ Performative.RAW_TRANSACTION then
      Except.ok Option.none
    else
      match bodyGet contract_api_msg.body "data" with
      | Option.none => Except.error PyErr.keyError
      | some (PyVal.str s) =>
        let multisend_data := strip2 s
        Except.ok (build_safe_tx_hash wallet safe_contract_address
          p.multisend_address ZERO_VALUE (hexToBytes multisend_data)
          SafeOperation_DELEGATE_CALL)
      | some _ => Except.error PyErr.typeError

/-- TxPreparationBehaviour.get_tx_hash: inspect the last decimal digit of
the synchronized timestamp, build the single bet placement transaction when
it is one of 0..6 and the batched multisend transaction otherwise. -/
def get_tx_hash (p : Params) (safe_contract_address : String)
    (sync_timestamp : Nat) (betResp : ContractApiResponse)
    (msAdapter : List MultiSendTx → ContractApiResponse)
    (wallet : SafeTxRequest → SafeHashResponse) :
    Except PyErr (Option String) :=
  let now := sync_timestamp
  let last_number := lastDecimalDigit now
  if last_number ∈ [0, 1, 2, 3, 4, 5, 6] then
    get_place_bet_safe_tx_hash p safe_contract_address betResp wallet
  else
    get_multisend_safe_tx_hash p safe_contract_address betResp msAdapter wallet

/-- Modelled from the spec: the tx_submitter identifier is the id of the
stage that produced the hash, a fixed string derived from the behaviour
class name. -/
def tx_submitter_id : String := "tx_preparation_behaviour"

/-- Payload of the TxPreparation stage. -/
structure TxPreparationPayload where
  sender : String
  tx_submitter : String
  tx_hash : Option String
deriving DecidableEq, Repr

/-- Local part of TxPreparationBehaviour.async_act: compute the hash and
assemble the payload; the sender is the replica-local agent address. -/
def tx_preparation_act (sender : String) (p : Params)
    (safe_contract_address : String) (sync_timestamp : Nat)
    (betResp : ContractApiResponse)
    (msAdapter : List MultiSendTx → ContractApiResponse)
    (wallet : SafeTxRequest → SafeHashResponse) :
    Except PyErr TxPreparationPayload :=
  match get_tx_hash p safe_contract_address sync_timestamp betResp msAdapter wallet with
  | Except.error e => Except.error e
  | Except.ok tx_hash => Except.ok ⟨sender, tx_submitter_id, tx_hash⟩

/-- Example wallet hash of the expected full length 66: marker plus 64 hex
characters. -/
def exHash66 : String := "0x" ++ String.mk (List.replicate 64 'a')

/-- Example configuration used to instantiate the theorems. -/
def exParams : Params := ⟨"0xbet", "0xms", "0xtarget", "match1", 100⟩

/-- Example betting adapter response carrying two bytes of call data. -/
def exBetResp : ContractApiResponse :=
  ⟨Performative.RAW_TRANSACTION, [("data", PyVal.bytes [18, 52])]⟩

/-- Example packed multisend data string returned by the packing adapter. -/
def exMsData : String := "0xdeadbeef"

/-- Example multisend packing adapter oracle. -/
def exMsAdapter : List MultiSendTx → ContractApiResponse :=
  fun _ => ⟨Performative.RAW_TRANSACTION, [("data", PyVal.str exMsData)]⟩

/-- Example wallet interface oracle returning a well-formed hash. -/
def exWallet : SafeTxRequest → SafeHashResponse :=
  fun _ => ⟨Performative.STATE, some exHash66⟩

theorem lastDecimalDigit_eq_mod (n : Nat) : lastDecimalDigit n = n % 10 := by
  unfold lastDecimalDigit
  rw [digitsRev.eq_def]
  by_cases h : n < 10
  · rw [dif_pos h]
    simp [Nat.mod_eq_of_lt h]
  · rw [dif_neg h]
    rfl

theorem strip2_length (s : String) : (strip2 s).length = s.length - 2 := by
  show (s.data.drop 2).length = s.data.length - 2
  simp

theorem hexCharVal_hexDigitChar : ∀ n : Nat, n < 16 → hexCharVal (hexDigitChar n) = n := by
  decide

theorem hexToBytes_bytesToHex (bs : List Nat) (h : ∀ b ∈ bs, b < 256) :
    hexToBytes (bytesToHex bs) = bs := by
  induction bs with
  | nil => rfl
  | cons b rest ih =>
    have hb : b < 256 := h b (by simp)
    have hrest : ∀ x ∈ rest, x < 256 := fun x hx => h x (by simp [hx])
    have h1 : hexCharVal (hexDigitChar (b / 16)) = b / 16 :=
      hexCharVal_hexDigitChar _ (by omega)
    have h2 : hexCharVal (hexDigitChar (b % 16)) = b % 16 :=
      hexCharVal_hexDigitChar _ (by omega)
    have ihr := ih hrest
    simp only [hexToBytes, bytesToHex, List.map_cons, List.flatten_cons,
      byteToHex] at ihr ⊢
    simp only [List.cons_append, List.nil_append, hexPairsToBytes, h1, h2]
    simp only [List.append_eq, List.nil_append]
    rw [ihr, Nat.div_add_mod]

/-- C1: for every pair of booleans (betting_result, has_placed_bet) read
from SynchronizedData, get_next_event returns TRANSACT if and only if
betting_result is true and has_placed_bet is false, returns DONE in every
other case, and no other field of the synchronized data influences the
result. -/
theorem decision_totality (s : SynchronizedData) :
    (get_next_event s = Event.TRANSACT ↔
      (s.betting_result = true ∧ s.has_placed_bet = false))
    ∧ (get_next_event s = Event.DONE ↔
      ¬(s.betting_result = true ∧ s.has_placed_bet = false))
    ∧ (∀ s' : SynchronizedData, s'.betting_result = s.betting_result →
        s'.has_placed_bet = s.has_placed_bet →
        get_next_event s' = get_next_event s) := by
  obtain ⟨br, hpb, ih, sa⟩ := s
  refine ⟨?_, ?_, ?_⟩
  · cases br <;> cases hpb <;> simp [get_next_event]
  · cases br <;> cases hpb <;> simp [get_next_event]
  · intro s' h1 h2
    simp only [get_next_event, h1, h2]

/-- Witness for C1 at a concrete synchronized state: the TRANSACT case, and
independence from the other fields. -/
theorem decision_totality_witness :
    get_next_event ⟨true, false, "ipfs1", "safe1"⟩ = Event.TRANSACT
    ∧ get_next_event ⟨true, false, "ipfs2", "safe2"⟩
      = get_next_event ⟨true, false, "ipfs1", "safe1"⟩ :=
  ⟨(decision_totality ⟨true, false, "ipfs1", "safe1"⟩).1.mpr (by decide),
   (decision_totality ⟨true, false, "ipfs1", "safe1"⟩).2.2
     ⟨true, false, "ipfs2", "safe2"⟩ rfl rfl⟩

/-- C2: for every hash string h returned by the wallet interface with the
expected performative, the hash finalization of _build_safe_tx_hash yields
no hash exactly when the length of h with the 2-character marker stripped
differs from 64, and yields the combined hash for exactly-64-character
stripped inputs. -/
theorem process_safe_hash_response_state (to_address : String) (value : Int)
    (data : List Nat) (operation : Nat) (h : String) :
    process_safe_hash_response to_address value data operation
        ⟨Performative.STATE, some h⟩
      = if h.length = TX_HASH_LENGTH then
          some (hash_payload_to_hex (strip2 h) value SAFE_GAS to_address
            data operation)
        else Option.none := by
  by_cases hlen : h.length = TX_HASH_LENGTH
  · simp [process_safe_hash_response, hlen]
  · simp [process_safe_hash_response, hlen]

theorem hash_length_invariant (to_address : String) (value : Int)
    (data : List Nat) (operation : Nat) (h : String) :
    (process_safe_hash_response to_address value data operation
        ⟨Performative.STATE, some h⟩ = Option.none ↔ (strip2 h).length ≠ 64)
    ∧ ((strip2 h).length = 64 →
      process_safe_hash_response to_address value data operation
          ⟨Performative.STATE, some h⟩
        = some (hash_payload_to_hex (strip2 h) value SAFE_GAS to_address
            data operation)) := by
  have hs : (strip2 h).length = h.length - 2 := strip2_length h
  have key := process_safe_hash_response_state to_address value data operation h
  simp only [TX_HASH_LENGTH] at key
  constructor
  · rw [key]
    by_cases hlen : h.length = 66
    · rw [if_pos hlen]
      constructor
      · intro hx
        exact Option.noConfusion hx
      · intro hx
        exact absurd (by omega : (strip2 h).length = 64) hx
    · rw [if_neg hlen]
      constructor
      · intro _
        omega
      · intro _
        rfl
  · intro h64
    rw [key, if_pos (by omega)]

/-- Witness for C2: a 66-character wallet hash (64 after stripping) is
accepted and combined. -/
theorem hash_length_invariant_witness :
    (strip2 exHash66).length = 64
    ∧ process_safe_hash_response "0xbet" 100 [18, 52] 0
        ⟨Performative.STATE, some exHash66⟩
      = some (hash_payload_to_hex (strip2 exHash66) 100 SAFE_GAS "0xbet"
          [18, 52] 0) :=
  ⟨by decide,
   (hash_length_invariant "0xbet" 100 [18, 52] 0 exHash66).2 (by decide)⟩

/-- C3: the TxPreparation path selector depends only on the last decimal
digit of the synchronized timestamp; digits 0 to 6 select the single
bet-placement transaction, digits 7 to 9 select the batched multisend
transaction, and the two digit classes cover every digit with no overlap. -/
theorem selector_partition (p : Params) (safe : String)
    (betResp : ContractApiResponse)
    (msAdapter : List MultiSendTx → ContractApiResponse)
    (wallet : SafeTxRequest → SafeHashResponse) (t t' : Nat) :
    (t % 10 = t' % 10 →
      get_tx_hash p safe t betResp msAdapter wallet
        = get_tx_hash p safe t' betResp msAdapter wallet)
    ∧ (t % 10 < 7 →
      get_tx_hash p safe t betResp msAdapter wallet
        = get_place_bet_safe_tx_hash p safe betResp wallet)
    ∧ (6 < t % 10 →
      get_tx_hash p safe t betResp msAdapter wallet
        = get_multisend_safe_tx_hash p safe betResp msAdapter wallet)
    ∧ (t % 10 < 7 ∨ 6 < t % 10)
    ∧ ¬(t % 10 < 7 ∧ 6 < t % 10) := by
  have hmem : ∀ n : Nat,
      (lastDecimalDigit n ∈ ([0, 1, 2, 3, 4, 5, 6] : List Nat)) ↔ n % 10 < 7 := by
    intro n
    rw [lastDecimalDigit_eq_mod]
    have hlt : n % 10 < 10 := Nat.mod_lt _ (by omega)
    simp only [List.mem_cons, List.mem_singleton, List.not_mem_nil, or_false]
    omega
  refine ⟨?_, ?_, ?_, by omega, by omega⟩
  · intro h
    unfold get_tx_hash
    by_cases hc : t % 10 < 7
    · rw [if_pos ((hmem t).mpr hc), if_pos ((hmem t').mpr (by omega))]
    · rw [if_neg (fun hx => hc ((hmem t).mp hx)),
        if_neg (fun hx => hc (by rw [h]; exact (hmem t').mp hx))]
  · intro hc
    unfold get_tx_hash
    rw [if_pos ((hmem t).mpr hc)]
  · intro hc
    unfold get_tx_hash
    rw [if_neg (fun hx => by have := (hmem t).mp hx; omega)]

/-- Witness for C3: timestamps 13 and 3 share the last digit and take the
same path, and digit 3 selects the single bet-placement path. -/
theorem selector_partition_witness :
    get_tx_hash exParams "0xsafe" 13 exBetResp exMsAdapter exWallet
      = get_tx_hash exParams "0xsafe" 3 exBetResp exMsAdapter exWallet
    ∧ get_tx_hash exParams "0xsafe" 3 exBetResp exMsAdapter exWallet
      = get_place_bet_safe_tx_hash exParams "0xsafe" exBetResp exWallet :=
  ⟨(selector_partition exParams "0xsafe" exBetResp exMsAdapter exWallet 13 3).1
      (by decide),
   (selector_partition exParams "0xsafe" exBetResp exMsAdapter exWallet 3 3).2.1
      (by decide)⟩

theorem multisend_hash_unfold (p : Params) (safe : String)
    (betResp : ContractApiResponse)
    (msAdapter : List MultiSendTx → ContractApiResponse)
    (wallet : SafeTxRequest → SafeHashResponse) (hex s : String)
    (hbet : get_place_bet_data betResp = Except.ok (some hex))
    (hperf : (msAdapter (get_multisend_txs p hex)).performative
      = Performative.RAW_TRANSACTION)
    (hdata : bodyGet (msAdapter (get_multisend_txs p hex)).body "data"
      = some (PyVal.str s)) :
    get_multisend_safe_tx_hash p safe betResp msAdapter wallet
      = Except.ok (build_safe_tx_hash wallet safe p.multisend_address
          ZERO_VALUE (hexToBytes (strip2 s)) SafeOperation_DELEGATE_CALL) := by
  unfold get_multisend_safe_tx_hash
  rw [hbet]
  simp [hperf, hdata]

/-- C4: on the batched path, whenever the bet-placement call data is
available and the packing adapter answers with packed data, the list handed
to the packing adapter has exactly the two entries [native transfer,
bet-placement call] in that order, and the wallet signature-hash request
uses value 0 and the delegate-call operation, whatever the configured bet
amount. -/
theorem batched_tx_composition (p : Params) (safe : String)
    (betResp : ContractApiResponse)
    (msAdapter : List MultiSendTx → ContractApiResponse)
    (wallet : SafeTxRequest → SafeHashResponse) (hex s : String)
    (hbet : get_place_bet_data betResp = Except.ok (some hex))
    (hperf : (msAdapter (get_multisend_txs p hex)).performative
      = Performative.RAW_TRANSACTION)
    (hdata : bodyGet (msAdapter (get_multisend_txs p hex)).body "data"
      = some (PyVal.str s)) :
    (get_multisend_txs p hex).length = 2
    ∧ get_multisend_txs p hex
      = [⟨MultiSendOp.CALL, p.transfer_target_address, PyVal.int 1,
            Option.none⟩,
         ⟨MultiSendOp.CALL, p.betting_contract_address,
            PyVal.int p.betting_amount, some (hexToBytes hex)⟩]
    ∧ get_multisend_safe_tx_hash p safe betResp msAdapter wallet
      = Except.ok (process_safe_hash_response p.multisend_address ZERO_VALUE
          (hexToBytes (strip2 s)) SafeOperation_DELEGATE_CALL
          (wallet (mk_safe_tx_request safe p.multisend_address ZERO_VALUE
            (hexToBytes (strip2 s)) SafeOperation_DELEGATE_CALL)))
    ∧ (mk_safe_tx_request safe p.multisend_address ZERO_VALUE
        (hexToBytes (strip2 s)) SafeOperation_DELEGATE_CALL).value = 0
    ∧ (mk_safe_tx_request safe p.multisend_address ZERO_VALUE
        (hexToBytes (strip2 s)) SafeOperation_DELEGATE_CALL).operation
      = SafeOperation_DELEGATE_CALL := by
  refine ⟨rfl, rfl, ?_, rfl, rfl⟩
  rw [multisend_hash_unfold p safe betResp msAdapter wallet hex s hbet hperf
    hdata]
  rfl

/-- Witness for C4 at concrete configuration, adapter and wallet oracles. -/
theorem batched_tx_composition_witness :
    get_multisend_safe_tx_hash exParams "0xsafe" exBetResp exMsAdapter exWallet
      = Except.ok (process_safe_hash_response exParams.multisend_address
          ZERO_VALUE (hexToBytes (strip2 exMsData)) SafeOperation_DELEGATE_CALL
          (exWallet (mk_safe_tx_request "0xsafe" exParams.multisend_address
            ZERO_VALUE (hexToBytes (strip2 exMsData))
            SafeOperation_DELEGATE_CALL)))
    ∧ (get_multisend_txs exParams "1234").length = 2 :=
  ⟨(batched_tx_composition exParams "0xsafe" exBetResp exMsAdapter exWallet
      "1234" exMsData rfl rfl rfl).2.2.1,
   (batched_tx_composition exParams "0xsafe" exBetResp exMsAdapter exWallet
      "1234" exMsData rfl rfl rfl).1⟩

/-- C5: on the single-transaction path, an unavailable bet-placement call
data yields a null hash, and otherwise the wallet signature-hash request is
made with destination the configured betting contract, value the configured
bet amount, data the encoded bet-placement call, gas 0 and the plain-call
operation. -/
theorem single_tx_path (p : Params) (safe : String)
    (betResp : ContractApiResponse)
    (wallet : SafeTxRequest → SafeHashResponse) :
    (get_place_bet_data betResp = Except.ok Option.none →
      get_place_bet_safe_tx_hash p safe betResp wallet = Except.ok Option.none)
    ∧ (∀ bs : List Nat, betResp.performative = Performative.RAW_TRANSACTION →
        bodyGet betResp.body "data" = some (PyVal.bytes bs) →
        (∀ b ∈ bs, b < 256) →
        get_place_bet_safe_tx_hash p safe betResp wallet
          = Except.ok (process_safe_hash_response p.betting_contract_address
              p.betting_amount bs SafeOperation_CALL
              (wallet (mk_safe_tx_request safe p.betting_contract_address
                p.betting_amount bs SafeOperation_CALL)))
        ∧ (mk_safe_tx_request safe p.betting_contract_address
            p.betting_amount bs SafeOperation_CALL).to_address
          = p.betting_contract_address
        ∧ (mk_safe_tx_request safe p.betting_contract_address
            p.betting_amount bs SafeOperation_CALL).value = p.betting_amount
        ∧ (mk_safe_tx_request safe p.betting_contract_address
            p.betting_amount bs SafeOperation_CALL).data = bs
        ∧ (mk_safe_tx_request safe p.betting_contract_address
            p.betting_amount bs SafeOperation_CALL).safe_tx_gas = 0
        ∧ (mk_safe_tx_request safe p.betting_contract_address
            p.betting_amount bs SafeOperation_CALL).operation
          = SafeOperation_CALL
        ∧ SafeOperation_CALL = 0) := by
  constructor
  · intro h0
    unfold get_place_bet_safe_tx_hash
    rw [h0]
  · intro bs hperf hdata hbytes
    have hpd : get_place_bet_data betResp
        = Except.ok (some (bytesToHex bs)) := by
      unfold get_place_bet_data
      simp [hperf, hdata]
    refine ⟨?_, rfl, rfl, rfl, rfl, rfl, rfl⟩
    unfold get_place_bet_safe_tx_hash
    rw [hpd]
    simp only [hexToBytes_bytesToHex bs hbytes]
    rfl

/-- Witness for C5 at a concrete adapter response carrying bytes 0x12 0x34. -/
theorem single_tx_path_witness :
    get_place_bet_safe_tx_hash exParams "0xsafe" exBetResp exWallet
      = Except.ok (process_safe_hash_response exParams.betting_contract_address
          exParams.betting_amount [18, 52] SafeOperation_CALL
          (exWallet (mk_safe_tx_request "0xsafe"
            exParams.betting_contract_address exParams.betting_amount
            [18, 52] SafeOperation_CALL))) :=
  ((single_tx_path exParams "0xsafe" exBetResp exWallet).2 [18, 52] rfl rfl
    (by decide)).1

/-- C6: on a betting-contract read response with a wrong performative or a
missing data key, get_has_placed_bet does yield None, but the payload
construction of DataPullBehaviour.async_act then subscripts the None value
at has_placed_bet[0] and raises TypeError, so no payload carrying a null
has_placed_bet is constructed and the exception crosses the stage
boundary. -/
theorem data_pull_none_subscript_raises :
    get_has_placed_bet ⟨Performative.ERROR, []⟩ = PyVal.none
    ∧ get_has_placed_bet
        ⟨Performative.RAW_TRANSACTION, [("other", PyVal.bool true)]⟩
      = PyVal.none
    ∧ data_pull_act "agent" [("result", PyVal.bool true)] (some "QmHash")
        ⟨Performative.ERROR, []⟩ = Except.error PyErr.typeError
    ∧ data_pull_act "agent" [("result", PyVal.bool true)] (some "QmHash")
        ⟨Performative.RAW_TRANSACTION, [("other", PyVal.bool true)]⟩
      = Except.error PyErr.typeError :=
  ⟨rfl, rfl, rfl, rfl⟩

/-- C7: for fixed configuration, synchronized data, synchronized timestamp
and fixed responses of the external interfaces, two executions of the
TxPreparation stage produce the same hash; in particular the replica-local
sender identity does not influence the tx_hash field of the payload. -/
theorem tx_preparation_determinism (sender1 sender2 : String) (p : Params)
    (safe : String) (t : Nat) (betResp : ContractApiResponse)
    (msAdapter : List MultiSendTx → ContractApiResponse)
    (wallet : SafeTxRequest → SafeHashResponse) :
    get_tx_hash p safe t betResp msAdapter wallet
      = get_tx_hash p safe t betResp msAdapter wallet
    ∧ (tx_preparation_act sender1 p safe t betResp msAdapter wallet).map
        TxPreparationPayload.tx_hash
      = (tx_preparation_act sender2 p safe t betResp msAdapter wallet).map
        TxPreparationPayload.tx_hash := by
  refine ⟨rfl, ?_⟩
  unfold tx_preparation_act
  cases get_tx_hash p safe t betResp msAdapter wallet <;> rfl

/-- C8: when persisting the oracle response fails, the DataPull stage still
builds its payload, with a null content hash and every other field equal to
what a successful store would have produced. -/
theorem ipfs_failure_nonfatal (sender : String)
    (oracle : List (String × PyVal)) (hpbResp : ContractApiResponse)
    (br hpb0 : PyVal) (h : String)
    (hres : bodyGet oracle "result" = some br)
    (hsub : pySubscript0 (get_has_placed_bet hpbResp) = Except.ok hpb0) :
    data_pull_act sender oracle Option.none hpbResp
      = Except.ok ⟨sender, br, Option.none, hpb0⟩
    ∧ data_pull_act sender oracle (some h) hpbResp
      = Except.ok ⟨sender, br, some h, hpb0⟩ := by
  constructor <;>
    simp [data_pull_act, send_betting_result_to_ipfs, hres, hsub]

/-- Witness for C8: concrete run with a failed store producing a null
content hash and otherwise unchanged fields. -/
theorem ipfs_failure_nonfatal_witness :
    data_pull_act "agent" [("result", PyVal.bool true)] Option.none
        ⟨Performative.RAW_TRANSACTION, [("data", PyVal.str "True")]⟩
      = Except.ok ⟨"agent", PyVal.bool true, Option.none, PyVal.str "T"⟩ :=
  (ipfs_failure_nonfatal "agent" [("result", PyVal.bool true)]
    ⟨Performative.RAW_TRANSACTION, [("data", PyVal.str "True")]⟩
    (PyVal.bool true) (PyVal.str "T") "QmHash" rfl rfl).1

/-- C9: the native-transfer entry of the batched path always carries the
hard-coded value 1 wei, is addressed to the configured transfer target and
has no call-data field, for every configuration and so independently of the
configured bet amount. -/
theorem native_transfer_hardcoded (p : Params) (hex : String) :
    bodyGet (get_native_transfer_data p) VALUE_KEY = some (PyVal.int 1)
    ∧ bodyGet (get_native_transfer_data p) TO_ADDRESS_KEY
      = some (PyVal.str p.transfer_target_address)
    ∧ (get_multisend_txs p hex)[0]?
      = some ⟨MultiSendOp.CALL, p.transfer_target_address, PyVal.int 1,
          Option.none⟩ :=
  ⟨rfl, rfl, rfl⟩

/-- C10: both entries handed to the multisend packing adapter use the CALL
operation, the bet-placement entry carries the configured bet amount as its
value, and the outer wallet request for the packed batch uses the
delegate-call operation. -/
theorem multisend_suboperations (p : Params) (hex : String) :
    (∀ tx ∈ get_multisend_txs p hex, tx.operation = MultiSendOp.CALL)
    ∧ ((get_multisend_txs p hex)[1]?).map MultiSendTx.value
      = some (PyVal.int p.betting_amount)
    ∧ (∀ (safe : String) (betResp : ContractApiResponse)
        (msAdapter : List MultiSendTx → ContractApiResponse)
        (wallet : SafeTxRequest → SafeHashResponse) (s : String),
        get_place_bet_data betResp = Except.ok (some hex) →
        (msAdapter (get_multisend_txs p hex)).performative
          = Performative.RAW_TRANSACTION →
        bodyGet (msAdapter (get_multisend_txs p hex)).body "data"
          = some (PyVal.str s) →
        get_multisend_safe_tx_hash p safe betResp msAdapter wallet
          = Except.ok (build_safe_tx_hash wallet safe p.multisend_address
              ZERO_VALUE (hexToBytes (strip2 s))
              SafeOperation_DELEGATE_CALL))
    ∧ SafeOperation_DELEGATE_CALL = 1 ∧ SafeOperation_CALL = 0 := by
  refine ⟨?_, rfl, ?_, rfl, rfl⟩
  · intro tx htx
    simp only [get_multisend_txs, List.mem_cons, List.not_mem_nil,
      or_false] at htx
    rcases htx with h | h <;> subst h <;> rfl
  · intro safe betResp msAdapter wallet s hbet hperf hdata
    exact multisend_hash_unfold p safe betResp msAdapter wallet hex s hbet
      hperf hdata

/-- Witness for C10: the first packed entry at a concrete configuration uses
CALL, and the concrete batched run requests the wallet hash with the
delegate-call operation. -/
theorem multisend_suboperations_witness :
    (⟨MultiSendOp.CALL, "0xtarget", PyVal.int 1, Option.none⟩ :
        MultiSendTx).operation = MultiSendOp.CALL
    ∧ get_multisend_safe_tx_hash exParams "0xsafe" exBetResp exMsAdapter
        exWallet
      = Except.ok (build_safe_tx_hash exWallet "0xsafe"
          exParams.multisend_address ZERO_VALUE (hexToBytes (strip2 exMsData))
          SafeOperation_DELEGATE_CALL) :=
  ⟨(multisend_suboperations exParams "1234").1
      ⟨MultiSendOp.CALL, "0xtarget", PyVal.int 1, Option.none⟩ (by decide),
   (multisend_suboperations exParams "1234").2.2.1 "0xsafe" exBetResp
      exMsAdapter exWallet exMsData rfl rfl rfl⟩
